import Mathlib

/-!
Shallow embedding of `src/01_data_preparation.py`, the single-file EEG
preprocessing pipeline of the repository (FatigueSet data preparation).

Modelling choices:
* A 2D NumPy array (timepoints × channels) is `Arr2`: a recorded column
  count plus the list of rows; the NumPy shape invariant (every row has
  `cols` entries) is the predicate `Arr2.wf`.
* A pandas `DataFrame` obtained from `pd.read_csv` is `DataFrame`: a list
  of column names plus a list of rows.
* Machine strings (file names, column names, artifact names) are carried
  as `List Char` (`Str` below), with the Python string operations the
  script uses (`endswith`, `lower`, `split`, concatenation) spelled out
  on that carrier, so every definition evaluates inside the logic.
* A directory entry is `FsFile`: a file name together with the outcome of
  reading/parsing it (`Except` mirrors the Python exception on read).
* A filesystem snapshot is a function from directory paths to
  `Option (List FsFile)` (`none` = the directory does not exist); the list
  order is the `os.listdir` enumeration order of one run.
Integers stand for the numeric cell values; the claims under study are
about shapes, padding and selection, never about rounding, so `Int` is a
faithful carrier.
-/

/-- The string carrier of the embedding. -/
abbrev Str := List Char

/-- View a Lean string literal as the embedding's string carrier. -/
def str (s : String) : Str := s.data

/-- Python `s.endswith(suffix)`. -/
def strEndsWith (s suffix : Str) : Bool :=
  suffix.isSuffixOf s

/-- Python `s.split(sep)` for a one-character separator: split at every
occurrence of `sep`, keeping empty pieces. -/
def strSplitOn (sep : Char) (s : Str) : List Str :=
  match s with
  | [] => [[]]
  | c :: rest =>
      match strSplitOn sep rest with
      | [] => if c == sep then [[], []] else [[c]]
      | h :: t => if c == sep then [] :: h :: t else (c :: h) :: t

/-- Python `s.lower()` (the script only lower-cases ASCII names). -/
def strLower (s : Str) : Str :=
  s.map Char.toLower

/-- A 2D numeric array: `cols` is the channel count (NumPy `shape[1]`),
`data` the list of rows (NumPy `shape[0] = data.length`). -/
structure Arr2 where
  cols : Nat
  data : List (List Int)
  deriving DecidableEq, Repr

/-- The NumPy shape invariant: every row of the 2D array has `cols` entries. -/
def Arr2.wf (a : Arr2) : Prop :=
  ∀ r ∈ a.data, r.length = a.cols

instance (a : Arr2) : Decidable a.wf :=
  inferInstanceAs (Decidable (∀ r ∈ a.data, r.length = a.cols))

/-- A parsed tabular file as pandas sees it: header names and data rows. -/
structure DataFrame where
  colNames : List Str
  rows : List (List Int)
  deriving DecidableEq, Repr

/-- The DataFrame shape invariant: every row has one entry per column name. -/
def DataFrame.wf (df : DataFrame) : Prop :=
  ∀ r ∈ df.rows, r.length = df.colNames.length

instance (df : DataFrame) : Decidable df.wf :=
  inferInstanceAs (Decidable (∀ r ∈ df.rows, r.length = df.colNames.length))

/-- `data.drop(columns=[bad])`: remove every column labelled `bad`, keeping
the remaining columns in file order (entries of each row are filtered in
parallel with the header). -/
def dropColumnsNamed (bad : Str) (df : DataFrame) : DataFrame :=
  { colNames := df.colNames.filter (fun c => c != bad),
    rows := df.rows.map
      (fun r => ((df.colNames.zip r).filter (fun p => p.1 != bad)).map Prod.snd) }

/-- `DataFrame.to_numpy()`: forget the header, keep the rows. -/
def pd_to_numpy (df : DataFrame) : Arr2 :=
  { cols := df.colNames.length, data := df.rows }

/-- `load_csv_to_numpy` (src/01_data_preparation.py:25-39): the argument is
the outcome of `pd.read_csv` (`Except.error` = the read raised). On success
the spurious `'Unnamed: 0'` index column is dropped when present and the
frame is converted to a 2D array; on any error the function logs and
returns `None` instead of raising. -/
def load_csv_to_numpy (res : Except Str DataFrame) : Option Arr2 :=
  match res with
  | Except.error _ => none
  | Except.ok data =>
      let data' := if data.colNames.contains (str "Unnamed: 0")
                   then dropColumnsNamed (str "Unnamed: 0") data
                   else data
      some (pd_to_numpy data')

/-- One directory entry: its name and the outcome of reading it as a CSV. -/
structure FsFile where
  name : Str
  raw : Except Str DataFrame

/-- Loading one directory entry = `load_csv_to_numpy` on its read outcome. -/
def FsFile.load (f : FsFile) : Option Arr2 :=
  load_csv_to_numpy f.raw

/-- `[f for f in os.listdir(folder_path) if f.endswith('.csv')]`. -/
def csvFiles (files : List FsFile) : List FsFile :=
  files.filter (fun f => strEndsWith f.name (str ".csv"))

/-- `pad_array` (src/01_data_preparation.py:41-56): zero-pad the rows of a
2D array up to `target_length`; arrays already at least that long pass
through unchanged (no truncation). -/
def pad_array (array : Arr2) (target_length : Nat) : Arr2 :=
  let current_length := array.data.length
  if current_length < target_length then
    { cols := array.cols,
      data := array.data ++
        List.replicate (target_length - current_length) (List.replicate array.cols 0) }
  else
    array

/-- `find_max_length` (src/01_data_preparation.py:58-75): fold over the
`.csv`-named entries, updating the running maximum with each successfully
loaded array's row count; files that fail to load leave the maximum alone. -/
def find_max_length (files : List FsFile) : Nat :=
  (csvFiles files).foldl
    (fun max_length f =>
      match f.load with
      | some array_2d => max max_length array_2d.data.length
      | none => max_length)
    0

/-- The successfully loaded arrays of a directory's `.csv` entries, in
enumeration order: the tables both passes of the pipeline agree on. -/
def validArrays (files : List FsFile) : List Arr2 :=
  (csvFiles files).filterMap FsFile.load

/-- A 3D NumPy array: recorded dimensions plus nested data. -/
structure Arr3 where
  n : Nat
  r : Nat
  c : Nat
  data : List (List (List Int))
  deriving DecidableEq, Repr

/-- `np.stack(array_list, axis=0)` on a list of 2D arrays: defined only when
the list is nonempty and all arrays share one shape (NumPy raises
otherwise; the caller guards the empty case). -/
def np_stack (l : List Arr2) : Option Arr3 :=
  match l with
  | [] => none
  | a :: _ =>
      if l.all (fun b => b.data.length == a.data.length && b.cols == a.cols) then
        some { n := l.length, r := a.data.length, c := a.cols,
               data := l.map Arr2.data }
      else
        none

/-- `create_3d_array` (src/01_data_preparation.py:77-105): scan for the
maximum length, then load, pad and collect each `.csv` entry, and stack;
an empty collection yields `None` (the Python `if array_list:` guard). -/
def create_3d_array (files : List FsFile) : Option Arr3 :=
  let max_length := find_max_length files
  let array_list :=
    (csvFiles files).filterMap
      (fun f => (f.load).map (fun array_2d => pad_array array_2d max_length))
  np_stack array_list

/-- `BASE_PATH = 'data/fatigueset'` (src/01_data_preparation.py:12). -/
def BASE_PATH : Str := str "data/fatigueset"

/-- `OUTPUT_PATH = 'processed_data'` (src/01_data_preparation.py:16). -/
def OUTPUT_PATH : Str := str "processed_data"

/-- `os.path.join(a, b)` for a relative second component. -/
def os_path_join (a b : Str) : Str := a ++ str "/" ++ b

/-- One entry of the orchestrator's catalog: a source directory and the
derived output artifact name. -/
structure DataSetEntry where
  input_path : Str
  output_name : Str
  deriving DecidableEq, Repr

/-- The six signal bands (src/01_data_preparation.py:116). -/
def bands : List Str :=
  [str "Raw EEG", str "Alpha EEG", str "Beta EEG",
   str "Gamma EEG", str "Delta EEG", str "Theta EEG"]

/-- The three fatigue intensities (src/01_data_preparation.py:117). -/
def intensities : List Str :=
  [str "Low Intensity", str "Medium Intensity", str "High Intensity"]

/-- The catalog built by the nested loops of `process_fatigueset`
(src/01_data_preparation.py:114-134): for each band and intensity, the
input folder `BASE_PATH/<band> samples/<intensity>` and the output name
`array_3D_<band_abbr>_<intensity_abbr>.npy`, where each abbreviation is
the name lower-cased and cut at its first space. -/
def data_sets : List DataSetEntry :=
  bands.flatMap (fun band =>
    intensities.map (fun intensity =>
      let folder_name := band ++ str " samples/" ++ intensity
      let input_folder := os_path_join BASE_PATH folder_name
      let band_abbr := (strSplitOn ' ' (strLower band)).headD []
      let intensity_abbr := (strSplitOn ' ' (strLower intensity)).headD []
      { input_path := input_folder,
        output_name :=
          str "array_3D_" ++ band_abbr ++ str "_" ++ intensity_abbr ++ str ".npy" }))

/-- A filesystem snapshot: for each directory path, `none` when the
directory does not exist, otherwise its enumerated entries in
`os.listdir` order. -/
abbrev Fs := Str → Option (List FsFile)

/-- One iteration of the processing loop (src/01_data_preparation.py:137-155):
skip a missing directory with a warning; otherwise build the 3D array and,
when one resulted, save it under the derived output path. The result is
the file written for this group, when any. -/
def process_group (fs : Fs) (g : DataSetEntry) : Option (Str × Arr3) :=
  match fs g.input_path with
  | none => none
  | some files =>
      match create_3d_array files with
      | some array_3d => some (os_path_join OUTPUT_PATH g.output_name, array_3d)
      | none => none

/-- The processing loop over a catalog: the files written, in order. -/
def run_groups (fs : Fs) (gs : List DataSetEntry) : List (Str × Arr3) :=
  gs.filterMap (process_group fs)

/-- `process_fatigueset` (src/01_data_preparation.py:109-158): run the loop
over the full 18-group catalog; the result is the set of output artifacts
written by one run, as (path, contents) pairs in write order. -/
def process_fatigueset (fs : Fs) : List (Str × Arr3) :=
  run_groups fs data_sets

/-! ### Helper lemmas about the fold of `find_max_length` -/

/-- The accumulator fold of `find_max_length` is a maximum fold over the
successfully loaded arrays. -/
theorem foldl_load_eq_foldl_filterMap (l : List FsFile) :
    ∀ init : Nat,
      l.foldl
        (fun max_length f =>
          match f.load with
          | some array_2d => max max_length array_2d.data.length
          | none => max_length)
        init
      = (l.filterMap FsFile.load).foldl (fun m a => max m a.data.length) init := by
  induction l with
  | nil => intro init; simp
  | cons f t ih =>
      intro init
      cases h : f.load with
      | none => simp [List.filterMap_cons, h, ih]
      | some a => simp [List.filterMap_cons, h, ih]

theorem init_le_foldl_max (l : List Arr2) :
    ∀ init : Nat, init ≤ l.foldl (fun m a => max m a.data.length) init := by
  induction l with
  | nil => intro init; simp
  | cons a t ih =>
      intro init
      exact le_trans (le_max_left _ _) (ih (max init a.data.length))

theorem mem_le_foldl_max (l : List Arr2) (a : Arr2) (ha : a ∈ l) :
    ∀ init : Nat, a.data.length ≤ l.foldl (fun m b => max m b.data.length) init := by
  induction l with
  | nil => cases ha
  | cons b t ih =>
      intro init
      rcases List.mem_cons.mp ha with h | h
      · subst h
        exact le_trans (le_max_right _ _) (init_le_foldl_max t (max init a.data.length))
      · exact ih h (max init b.data.length)

theorem foldl_max_attained (l : List Arr2) :
    ∀ init : Nat,
      l.foldl (fun m a => max m a.data.length) init = init ∨
      ∃ a ∈ l, l.foldl (fun m b => max m b.data.length) init = a.data.length := by
  induction l with
  | nil => intro init; left; rfl
  | cons b t ih =>
      intro init
      rcases ih (max init b.data.length) with h | ⟨a, ha, h⟩
      · rcases Nat.le_total b.data.length init with hle | hle
        · left; simpa [Nat.max_eq_left hle] using h
        · right
          exact ⟨b, List.mem_cons_self b t, by simpa [Nat.max_eq_right hle] using h⟩
      · right
        exact ⟨a, List.mem_cons_of_mem _ ha, h⟩

/-- `find_max_length` as a maximum fold over the valid arrays. -/
theorem find_max_length_eq_fold (files : List FsFile) :
    find_max_length files =
      (validArrays files).foldl (fun m a => max m a.data.length) 0 := by
  unfold find_max_length validArrays
  exact foldl_load_eq_foldl_filterMap (csvFiles files) 0

/-! ### Shared helper lemmas -/

theorem pad_array_length_of_le (a : Arr2) (L : Nat) (h : a.data.length ≤ L) :
    (pad_array a L).data.length = L := by
  by_cases hlt : a.data.length < L
  · simp [pad_array, hlt, Nat.add_sub_cancel' h]
  · have hEq : a.data.length = L := le_antisymm h (Nat.not_lt.mp hlt)
    simp [pad_array, hlt, hEq]

theorem pad_array_cols (a : Arr2) (L : Nat) : (pad_array a L).cols = a.cols := by
  by_cases hlt : a.data.length < L <;> simp [pad_array, hlt]

/-- `np.stack` on a nonempty list of arrays that all share the head's
shape: the stack succeeds and is the list of the arrays' data. -/
theorem np_stack_cons_eq (a : Arr2) (t : List Arr2)
    (hsh : ∀ b ∈ a :: t, b.data.length = a.data.length ∧ b.cols = a.cols) :
    np_stack (a :: t) =
      some ⟨(a :: t).length, a.data.length, a.cols, (a :: t).map Arr2.data⟩ := by
  have hall : (a :: t).all
      (fun b => b.data.length == a.data.length && b.cols == a.cols) = true := by
    rw [List.all_eq_true]
    intro x hx
    obtain ⟨hR, hC⟩ := hsh x hx
    simp [hR, hC]
  simp [np_stack, hall]

/-- A `filterMap` post-composed with a total map splits into the
`filterMap` followed by the map. -/
theorem filterMap_map_load (l : List FsFile) (g : Arr2 → Arr2) :
    l.filterMap (fun f => (f.load).map g) = (l.filterMap FsFile.load).map g := by
  induction l with
  | nil => simp
  | cons f t ih => cases h : f.load <;> simp [List.filterMap_cons, h, ih]

/-- Unfolding of `create_3d_array` into its stacking pipeline. -/
theorem create_3d_array_eq (files : List FsFile) :
    create_3d_array files =
      np_stack ((csvFiles files).filterMap
        (fun f => (f.load).map (fun a => pad_array a (find_max_length files)))) := rfl

/-! ### C1 / C4: `pad_array` -/

/-- C1. For every 2D table and every target length at least its row count,
`pad_array` returns a table with exactly `target_length` rows whose prefix
is the original table, whose appended rows are all zero, and whose column
count is unchanged. -/
theorem pad_array_pads (a : Arr2) (L : Nat) (h : a.data.length ≤ L) :
    (pad_array a L).data.length = L ∧
    (pad_array a L).data.take a.data.length = a.data ∧
    (∀ r ∈ (pad_array a L).data.drop a.data.length, r = List.replicate a.cols 0) ∧
    (pad_array a L).cols = a.cols := by
  by_cases hlt : a.data.length < L
  · have hpad : pad_array a L =
        ⟨a.cols, a.data ++
          List.replicate (L - a.data.length) (List.replicate a.cols 0)⟩ := by
      simp [pad_array, hlt]
    rw [hpad]
    refine ⟨?_, ?_, ?_, rfl⟩
    · simp [Nat.add_sub_cancel' h]
    · simp
    · intro r hr
      rw [List.drop_left] at hr
      exact List.eq_of_mem_replicate hr
  · have hpad : pad_array a L = a := by
      simp [pad_array, hlt]
    have hEq : a.data.length = L := le_antisymm h (Nat.not_lt.mp hlt)
    rw [hpad]
    exact ⟨hEq, by simp, by simp, rfl⟩

theorem pad_array_pads_witness :
    (⟨2, [[1, 2]]⟩ : Arr2).data.length ≤ 3 ∧
    ((pad_array ⟨2, [[1, 2]]⟩ 3).data.length = 3 ∧
     (pad_array ⟨2, [[1, 2]]⟩ 3).data.take (⟨2, [[1, 2]]⟩ : Arr2).data.length
       = (⟨2, [[1, 2]]⟩ : Arr2).data ∧
     (∀ r ∈ (pad_array ⟨2, [[1, 2]]⟩ 3).data.drop
         (⟨2, [[1, 2]]⟩ : Arr2).data.length, r = List.replicate 2 0) ∧
     (pad_array ⟨2, [[1, 2]]⟩ 3).cols = 2) :=
  ⟨by decide, pad_array_pads ⟨2, [[1, 2]]⟩ 3 (by decide)⟩

/-- C4. For every 2D table and every target length at most its row count,
`pad_array` returns the table unchanged: no truncation ever occurs. -/
theorem pad_array_no_truncation (a : Arr2) (L : Nat) (h : L ≤ a.data.length) :
    pad_array a L = a := by
  unfold pad_array
  simp [Nat.not_lt.mpr h]

theorem pad_array_no_truncation_witness :
    1 ≤ (⟨1, [[5], [6]]⟩ : Arr2).data.length ∧
    pad_array ⟨1, [[5], [6]]⟩ 1 = ⟨1, [[5], [6]]⟩ :=
  ⟨by decide, pad_array_no_truncation ⟨1, [[5], [6]]⟩ 1 (by decide)⟩

/-! ### C2: `find_max_length` -/

/-- C2. `find_max_length` bounds every valid file's row count from above,
attains that bound at some valid file whenever one exists, and returns 0
for a directory without valid files. -/
theorem find_max_length_correct (files : List FsFile) :
    (∀ a ∈ validArrays files, a.data.length ≤ find_max_length files) ∧
    (validArrays files ≠ [] →
      ∃ a ∈ validArrays files, a.data.length = find_max_length files) ∧
    (validArrays files = [] → find_max_length files = 0) := by
  rw [find_max_length_eq_fold]
  refine ⟨?_, ?_, ?_⟩
  · intro a ha
    exact mem_le_foldl_max (validArrays files) a ha 0
  · intro hne
    rcases foldl_max_attained (validArrays files) 0 with h | ⟨a, ha, h⟩
    · rcases List.exists_mem_of_ne_nil (validArrays files) hne with ⟨a, ha⟩
      refine ⟨a, ha, Nat.le_antisymm ?_ ?_⟩
      · exact mem_le_foldl_max (validArrays files) a ha 0
      · simp [h]
    · exact ⟨a, ha, h.symm⟩
  · intro hnil
    simp [hnil]

theorem find_max_length_correct_witness :
    (∀ a ∈ validArrays
        [⟨str "a.csv", Except.ok ⟨[str "x"], [[1], [2]]⟩⟩,
         ⟨str "b.txt", Except.ok ⟨[str "x"], [[1], [2], [3], [4]]⟩⟩,
         ⟨str "c.csv", Except.error (str "bad")⟩],
      a.data.length ≤ find_max_length
        [⟨str "a.csv", Except.ok ⟨[str "x"], [[1], [2]]⟩⟩,
         ⟨str "b.txt", Except.ok ⟨[str "x"], [[1], [2], [3], [4]]⟩⟩,
         ⟨str "c.csv", Except.error (str "bad")⟩]) ∧
    (validArrays
        [⟨str "a.csv", Except.ok ⟨[str "x"], [[1], [2]]⟩⟩,
         ⟨str "b.txt", Except.ok ⟨[str "x"], [[1], [2], [3], [4]]⟩⟩,
         ⟨str "c.csv", Except.error (str "bad")⟩] ≠ [] →
      ∃ a ∈ validArrays
        [⟨str "a.csv", Except.ok ⟨[str "x"], [[1], [2]]⟩⟩,
         ⟨str "b.txt", Except.ok ⟨[str "x"], [[1], [2], [3], [4]]⟩⟩,
         ⟨str "c.csv", Except.error (str "bad")⟩],
        a.data.length = find_max_length
        [⟨str "a.csv", Except.ok ⟨[str "x"], [[1], [2]]⟩⟩,
         ⟨str "b.txt", Except.ok ⟨[str "x"], [[1], [2], [3], [4]]⟩⟩,
         ⟨str "c.csv", Except.error (str "bad")⟩]) ∧
    (validArrays
        [⟨str "a.csv", Except.ok ⟨[str "x"], [[1], [2]]⟩⟩,
         ⟨str "b.txt", Except.ok ⟨[str "x"], [[1], [2], [3], [4]]⟩⟩,
         ⟨str "c.csv", Except.error (str "bad")⟩] = [] →
      find_max_length
        [⟨str "a.csv", Except.ok ⟨[str "x"], [[1], [2]]⟩⟩,
         ⟨str "b.txt", Except.ok ⟨[str "x"], [[1], [2], [3], [4]]⟩⟩,
         ⟨str "c.csv", Except.error (str "bad")⟩] = 0) :=
  find_max_length_correct
    [⟨str "a.csv", Except.ok ⟨[str "x"], [[1], [2]]⟩⟩,
     ⟨str "b.txt", Except.ok ⟨[str "x"], [[1], [2], [3], [4]]⟩⟩,
     ⟨str "c.csv", Except.error (str "bad")⟩]

/-! ### C3: stacking -/

/-- C3. Stacking a nonempty sequence of 2D tables of identical shape
(R, C) yields a 3D block of shape (N, R, C) whose slice `i` along the
leading trial axis is exactly input table `i`. -/
theorem np_stack_spec (l : List Arr2) (R C : Nat) (hne : l ≠ [])
    (hshape : ∀ a ∈ l, a.data.length = R ∧ a.cols = C) :
    ∃ b, np_stack l = some b ∧ b.n = l.length ∧ b.r = R ∧ b.c = C ∧
      b.data.length = l.length ∧
      ∀ i : Nat, b.data[i]? = (l[i]?).map Arr2.data := by
  cases l with
  | nil => exact absurd rfl hne
  | cons a t =>
      obtain ⟨haR, haC⟩ := hshape a (List.mem_cons_self a t)
      have hsh : ∀ b ∈ a :: t, b.data.length = a.data.length ∧ b.cols = a.cols := by
        intro b hb
        obtain ⟨hR, hC⟩ := hshape b hb
        exact ⟨hR.trans haR.symm, hC.trans haC.symm⟩
      refine ⟨_, np_stack_cons_eq a t hsh, rfl, haR, haC, by simp, ?_⟩
      intro i
      exact List.getElem?_map Arr2.data (a :: t) i

theorem np_stack_spec_witness :
    ([(⟨1, [[3]]⟩ : Arr2), ⟨1, [[4]]⟩] ≠ []) ∧
    (∀ a ∈ [(⟨1, [[3]]⟩ : Arr2), ⟨1, [[4]]⟩], a.data.length = 1 ∧ a.cols = 1) ∧
    (∃ b, np_stack [(⟨1, [[3]]⟩ : Arr2), ⟨1, [[4]]⟩] = some b ∧
      b.n = [(⟨1, [[3]]⟩ : Arr2), ⟨1, [[4]]⟩].length ∧ b.r = 1 ∧ b.c = 1 ∧
      b.data.length = [(⟨1, [[3]]⟩ : Arr2), ⟨1, [[4]]⟩].length ∧
      ∀ i : Nat, b.data[i]? =
        ([(⟨1, [[3]]⟩ : Arr2), ⟨1, [[4]]⟩][i]?).map Arr2.data) :=
  ⟨by decide, by decide,
   np_stack_spec [⟨1, [[3]]⟩, ⟨1, [[4]]⟩] 1 1 (by decide) (by decide)⟩

/-! ### C10: uniform shape of the stacking list -/

/-- C10. Within one group, when all valid tables share one column count,
every table appended to the stacking list has exactly the scanned maximum
as its row count and that shared column count, so the stack succeeds
whenever the list is nonempty. -/
theorem stacked_tables_uniform (files : List FsFile) (C : Nat)
    (hcols : ∀ a ∈ validArrays files, a.cols = C) :
    (∀ b ∈ (csvFiles files).filterMap
        (fun f => (f.load).map (fun a => pad_array a (find_max_length files))),
      b.data.length = find_max_length files ∧ b.cols = C) ∧
    (validArrays files ≠ [] → (create_3d_array files).isSome = true) := by
  have hlist : (csvFiles files).filterMap
      (fun f => (f.load).map (fun a => pad_array a (find_max_length files)))
      = (validArrays files).map (fun a => pad_array a (find_max_length files)) :=
    filterMap_map_load (csvFiles files) _
  have hle : ∀ a ∈ validArrays files, a.data.length ≤ find_max_length files := by
    intro a ha
    rw [find_max_length_eq_fold]
    exact mem_le_foldl_max _ a ha 0
  constructor
  · intro b hb
    rw [hlist] at hb
    obtain ⟨a, ha, rfl⟩ := List.mem_map.mp hb
    exact ⟨pad_array_length_of_le a _ (hle a ha),
           (pad_array_cols a _).trans (hcols a ha)⟩
  · intro hne
    rw [create_3d_array_eq, hlist]
    cases hv : validArrays files with
    | nil => exact absurd hv hne
    | cons v vs =>
        have hvmem : v ∈ validArrays files := by
          rw [hv]; exact List.mem_cons_self _ _
        have h1 : (pad_array v (find_max_length files)).data.length
            = find_max_length files := pad_array_length_of_le v _ (hle v hvmem)
        have h2 : (pad_array v (find_max_length files)).cols = C :=
          (pad_array_cols v _).trans (hcols v hvmem)
        rw [List.map_cons]
        have hsh : ∀ b ∈ pad_array v (find_max_length files) ::
            vs.map (fun a => pad_array a (find_max_length files)),
            b.data.length = (pad_array v (find_max_length files)).data.length ∧
            b.cols = (pad_array v (find_max_length files)).cols := by
          intro b hb
          rcases List.mem_cons.mp hb with rfl | hb'
          · exact ⟨rfl, rfl⟩
          · obtain ⟨a, ha', rfl⟩ := List.mem_map.mp hb'
            have hamem : a ∈ validArrays files := by
              rw [hv]; exact List.mem_cons_of_mem _ ha'
            constructor
            · rw [pad_array_length_of_le a _ (hle a hamem), h1]
            · rw [pad_array_cols, hcols a hamem, h2]
        rw [np_stack_cons_eq _ _ hsh]
        rfl

theorem stacked_tables_uniform_witness :
    (∀ a ∈ validArrays
        [⟨str "a.csv", Except.ok ⟨[str "x"], [[1], [2]]⟩⟩,
         ⟨str "b.csv", Except.ok ⟨[str "x"], [[3]]⟩⟩], a.cols = 1) ∧
    ((∀ b ∈ (csvFiles
        [⟨str "a.csv", Except.ok ⟨[str "x"], [[1], [2]]⟩⟩,
         ⟨str "b.csv", Except.ok ⟨[str "x"], [[3]]⟩⟩]).filterMap
        (fun f => (f.load).map (fun a => pad_array a (find_max_length
          [⟨str "a.csv", Except.ok ⟨[str "x"], [[1], [2]]⟩⟩,
           ⟨str "b.csv", Except.ok ⟨[str "x"], [[3]]⟩⟩]))),
      b.data.length = find_max_length
          [⟨str "a.csv", Except.ok ⟨[str "x"], [[1], [2]]⟩⟩,
           ⟨str "b.csv", Except.ok ⟨[str "x"], [[3]]⟩⟩] ∧ b.cols = 1) ∧
     (validArrays
        [⟨str "a.csv", Except.ok ⟨[str "x"], [[1], [2]]⟩⟩,
         ⟨str "b.csv", Except.ok ⟨[str "x"], [[3]]⟩⟩] ≠ [] →
      (create_3d_array
        [⟨str "a.csv", Except.ok ⟨[str "x"], [[1], [2]]⟩⟩,
         ⟨str "b.csv", Except.ok ⟨[str "x"], [[3]]⟩⟩]).isSome = true)) :=
  ⟨by decide,
   stacked_tables_uniform
    [⟨str "a.csv", Except.ok ⟨[str "x"], [[1], [2]]⟩⟩,
     ⟨str "b.csv", Except.ok ⟨[str "x"], [[3]]⟩⟩] 1 (by decide)⟩

/-! ### C5: empty or all-invalid group -/

/-- C5. A group whose directory exists but yields zero valid tables
produces no 3D array, writes no output file, and the run simply moves on
to the remaining groups. -/
theorem empty_group_skipped (fs : Fs) (g : DataSetEntry) (rest : List DataSetEntry)
    (files : List FsFile)
    (hdir : fs g.input_path = some files)
    (hall : ∀ f ∈ csvFiles files, f.load = none) :
    create_3d_array files = none ∧
    process_group fs g = none ∧
    run_groups fs (g :: rest) = run_groups fs rest := by
  have hlist : (csvFiles files).filterMap
      (fun f => (f.load).map (fun a => pad_array a (find_max_length files))) = [] := by
    rw [List.filterMap_eq_nil_iff]
    intro f hf
    rw [hall f hf]
    rfl
  have hc : create_3d_array files = none := by
    rw [create_3d_array_eq, hlist]
    rfl
  have hp : process_group fs g = none := by
    simp [process_group, hdir, hc]
  exact ⟨hc, hp, by simp [run_groups, List.filterMap_cons, hp]⟩

theorem empty_group_skipped_witness :
    ((fun _ : Str => some [(⟨str "a.csv", Except.error (str "boom")⟩ : FsFile)])
        (DataSetEntry.mk (str "d") (str "o")).input_path
      = some [⟨str "a.csv", Except.error (str "boom")⟩]) ∧
    (∀ f ∈ csvFiles [(⟨str "a.csv", Except.error (str "boom")⟩ : FsFile)],
      f.load = none) ∧
    (create_3d_array [(⟨str "a.csv", Except.error (str "boom")⟩ : FsFile)] = none ∧
     process_group
       (fun _ : Str => some [(⟨str "a.csv", Except.error (str "boom")⟩ : FsFile)])
       (DataSetEntry.mk (str "d") (str "o")) = none ∧
     run_groups
       (fun _ : Str => some [(⟨str "a.csv", Except.error (str "boom")⟩ : FsFile)])
       [DataSetEntry.mk (str "d") (str "o")]
       = run_groups
       (fun _ : Str => some [(⟨str "a.csv", Except.error (str "boom")⟩ : FsFile)])
       []) :=
  ⟨rfl, by decide,
   empty_group_skipped
     (fun _ : Str => some [⟨str "a.csv", Except.error (str "boom")⟩])
     (DataSetEntry.mk (str "d") (str "o")) []
     [⟨str "a.csv", Except.error (str "boom")⟩] rfl (by decide)⟩

/-! ### C6: failed files are skipped, not raised -/

/-- C6. A read/parse error makes the Loader yield `none` instead of
raising, and a file whose load fails is excluded from both the length
scan and the stacking pipeline: removing it from the directory changes
neither `find_max_length` nor the loaded tables nor `create_3d_array`. -/
theorem failed_file_excluded (e : Str) (l1 l2 : List FsFile) (f : FsFile)
    (hf : f.load = none) :
    load_csv_to_numpy (Except.error e) = none ∧
    find_max_length (l1 ++ f :: l2) = find_max_length (l1 ++ l2) ∧
    validArrays (l1 ++ f :: l2) = validArrays (l1 ++ l2) ∧
    create_3d_array (l1 ++ f :: l2) = create_3d_array (l1 ++ l2) := by
  have hsplit : ∀ m1 m2 : List FsFile,
      csvFiles (m1 ++ m2) = csvFiles m1 ++ csvFiles m2 := by
    intro m1 m2
    simp [csvFiles, List.filter_append]
  by_cases htest : strEndsWith f.name (str ".csv")
  · have hcsv : csvFiles (l1 ++ f :: l2) = csvFiles l1 ++ f :: csvFiles l2 := by
      rw [hsplit]
      congr 1
      simp [csvFiles, List.filter_cons, htest]
    have hcsv2 : csvFiles (l1 ++ l2) = csvFiles l1 ++ csvFiles l2 := hsplit l1 l2
    have hm : find_max_length (l1 ++ f :: l2) = find_max_length (l1 ++ l2) := by
      unfold find_max_length
      rw [hcsv, hcsv2, List.foldl_append, List.foldl_append, List.foldl_cons]
      simp [hf]
    have hv : validArrays (l1 ++ f :: l2) = validArrays (l1 ++ l2) := by
      unfold validArrays
      rw [hcsv, hcsv2]
      simp [List.filterMap_append, List.filterMap_cons, hf]
    have hc : create_3d_array (l1 ++ f :: l2) = create_3d_array (l1 ++ l2) := by
      rw [create_3d_array_eq, create_3d_array_eq, hm, hcsv, hcsv2]
      simp [List.filterMap_append, List.filterMap_cons, hf]
    exact ⟨rfl, hm, hv, hc⟩
  · have hcsv : csvFiles (l1 ++ f :: l2) = csvFiles (l1 ++ l2) := by
      rw [hsplit, hsplit]
      congr 1
      simp [csvFiles, List.filter_cons, htest]
    have hm : find_max_length (l1 ++ f :: l2) = find_max_length (l1 ++ l2) := by
      unfold find_max_length
      rw [hcsv]
    refine ⟨rfl, hm, ?_, ?_⟩
    · unfold validArrays
      rw [hcsv]
    · rw [create_3d_array_eq, create_3d_array_eq, hm, hcsv]

theorem failed_file_excluded_witness :
    (⟨str "bad.csv", Except.error (str "oops")⟩ : FsFile).load = none ∧
    (load_csv_to_numpy (Except.error (str "boom")) = none ∧
     find_max_length
       ([] ++ (⟨str "bad.csv", Except.error (str "oops")⟩ : FsFile) ::
         [⟨str "g.csv", Except.ok ⟨[str "x"], [[1]]⟩⟩])
       = find_max_length ([] ++ [⟨str "g.csv", Except.ok ⟨[str "x"], [[1]]⟩⟩]) ∧
     validArrays
       ([] ++ (⟨str "bad.csv", Except.error (str "oops")⟩ : FsFile) ::
         [⟨str "g.csv", Except.ok ⟨[str "x"], [[1]]⟩⟩])
       = validArrays ([] ++ [⟨str "g.csv", Except.ok ⟨[str "x"], [[1]]⟩⟩]) ∧
     create_3d_array
       ([] ++ (⟨str "bad.csv", Except.error (str "oops")⟩ : FsFile) ::
         [⟨str "g.csv", Except.ok ⟨[str "x"], [[1]]⟩⟩])
       = create_3d_array ([] ++ [⟨str "g.csv", Except.ok ⟨[str "x"], [[1]]⟩⟩])) :=
  ⟨by decide,
   failed_file_excluded (str "boom") []
     [⟨str "g.csv", Except.ok ⟨[str "x"], [[1]]⟩⟩]
     ⟨str "bad.csv", Except.error (str "oops")⟩ (by decide)⟩

/-! ### C7: the orchestrator's catalog -/

/-- C7. The orchestrator enumerates exactly 18 groups (6 bands × 3
intensities) and derives each output artifact name as
`array_3D_<band_abbr>_<intensity_abbr>.npy`, the abbreviations being the
names lower-cased up to their first space: raw/alpha/beta/gamma/delta/theta
and low/medium/high. -/
theorem data_sets_catalog :
    bands.length = 6 ∧ intensities.length = 3 ∧ data_sets.length = 18 ∧
    data_sets.map DataSetEntry.output_name =
      [str "array_3D_raw_low.npy", str "array_3D_raw_medium.npy",
       str "array_3D_raw_high.npy",
       str "array_3D_alpha_low.npy", str "array_3D_alpha_medium.npy",
       str "array_3D_alpha_high.npy",
       str "array_3D_beta_low.npy", str "array_3D_beta_medium.npy",
       str "array_3D_beta_high.npy",
       str "array_3D_gamma_low.npy", str "array_3D_gamma_medium.npy",
       str "array_3D_gamma_high.npy",
       str "array_3D_delta_low.npy", str "array_3D_delta_medium.npy",
       str "array_3D_delta_high.npy",
       str "array_3D_theta_low.npy", str "array_3D_theta_medium.npy",
       str "array_3D_theta_high.npy"] := by
  decide

/-! ### C9: determinism across runs -/

/-- C9 (counterexample). The stacked artifact of a group is not invariant
under the enumeration order of the directory: two directory states holding
exactly the same files (a permutation, i.e. unchanged contents) yield
different 3D arrays. Since the enumeration order is whatever the
filesystem yields and is not guaranteed stable between runs, two runs on
unchanged input directories need not produce byte-identical artifacts. -/
theorem create_3d_array_not_order_invariant :
    List.Perm
      [(⟨str "a.csv", Except.ok ⟨[str "ch"], [[1]]⟩⟩ : FsFile),
       ⟨str "b.csv", Except.ok ⟨[str "ch"], [[2]]⟩⟩]
      [(⟨str "b.csv", Except.ok ⟨[str "ch"], [[2]]⟩⟩ : FsFile),
       ⟨str "a.csv", Except.ok ⟨[str "ch"], [[1]]⟩⟩] ∧
    create_3d_array
      [⟨str "a.csv", Except.ok ⟨[str "ch"], [[1]]⟩⟩,
       ⟨str "b.csv", Except.ok ⟨[str "ch"], [[2]]⟩⟩] ≠
    create_3d_array
      [⟨str "b.csv", Except.ok ⟨[str "ch"], [[2]]⟩⟩,
       ⟨str "a.csv", Except.ok ⟨[str "ch"], [[1]]⟩⟩] :=
  ⟨List.Perm.swap _ _ _, by decide⟩

/-- The processing loop only looks the catalog's directories up in the
filesystem snapshot; equal lookups give equal output lists. -/
theorem run_groups_congr (fs1 fs2 : Fs) (gs : List DataSetEntry)
    (h : ∀ g ∈ gs, fs1 g.input_path = fs2 g.input_path) :
    run_groups fs1 gs = run_groups fs2 gs := by
  induction gs with
  | nil => rfl
  | cons g t ih =>
      have hg : process_group fs1 g = process_group fs2 g := by
        unfold process_group
        rw [h g (List.mem_cons_self g t)]
      have ht : run_groups fs1 t = run_groups fs2 t :=
        ih (fun g' hg' => h g' (List.mem_cons_of_mem _ hg'))
      unfold run_groups at ht ⊢
      rw [List.filterMap_cons, List.filterMap_cons, hg, ht]

/-- C9 (amended). The pipeline is a function of what the filesystem
returns for the 18 catalog directories: two runs whose directory
enumerations coincide (same files, same order, same contents) write
byte-identical output artifacts. -/
theorem process_fatigueset_deterministic (fs1 fs2 : Fs)
    (h : ∀ g ∈ data_sets, fs1 g.input_path = fs2 g.input_path) :
    process_fatigueset fs1 = process_fatigueset fs2 :=
  run_groups_congr fs1 fs2 data_sets h

theorem process_fatigueset_deterministic_witness :
    (∀ g ∈ data_sets,
      (fun _ : Str => (none : Option (List FsFile))) g.input_path =
      (fun p : Str => if strEndsWith p (str "zzz")
                      then some ([] : List FsFile) else none) g.input_path) ∧
    process_fatigueset (fun _ : Str => (none : Option (List FsFile))) =
      process_fatigueset (fun p : Str =>
        if strEndsWith p (str "zzz") then some ([] : List FsFile) else none) := by
  have hb : ∀ g ∈ data_sets, strEndsWith g.input_path (str "zzz") = false := by
    decide
  have h : ∀ g ∈ data_sets,
      (fun _ : Str => (none : Option (List FsFile))) g.input_path =
      (fun p : Str => if strEndsWith p (str "zzz")
                      then some ([] : List FsFile) else none) g.input_path := by
    intro g hg
    simp only [hb g hg, if_false, Bool.false_eq_true]
  exact ⟨h, process_fatigueset_deterministic _ _ h⟩

/-! ### C8: the Loader's index-column handling -/

theorem map_snd_zip_of_length_eq {α β : Type} :
    ∀ (l1 : List α) (l2 : List β), l1.length = l2.length →
      (l1.zip l2).map Prod.snd = l2 := by
  intro l1
  induction l1 with
  | nil =>
      intro l2 h
      cases l2 with
      | nil => rfl
      | cons b u => simp at h
  | cons a t ih =>
      intro l2 h
      cases l2 with
      | nil => simp at h
      | cons b u =>
          rw [List.zip_cons_cons, List.map_cons, ih u (by simpa using h)]

/-- Filtering the label-tagged entries of a row at a label absent from the
remaining header, then projecting the values, is exactly dropping the
row's first entry. -/
theorem drop_row_eq_tail (u : Str) (rest : List Str) (h2 : u ∉ rest)
    (r : List Int) (hr : r.length = rest.length + 1) :
    (((u :: rest).zip r).filter (fun p => p.1 != u)).map Prod.snd = r.tail := by
  cases r with
  | nil => simp at hr
  | cons rh rt =>
      have hlen : rest.length = rt.length := by
        simpa using hr.symm
      have hkeep : (rest.zip rt).filter (fun p => p.1 != u) = rest.zip rt := by
        rw [List.filter_eq_self]
        intro p hp
        obtain ⟨x, y⟩ := p
        have hmem : x ∈ rest := (List.of_mem_zip hp).1
        exact bne_iff_ne.mpr (fun hxy => h2 (hxy ▸ hmem))
      rw [List.zip_cons_cons, List.filter_cons]
      simp only [bne_self_eq_false, Bool.false_eq_true, if_false]
      rw [hkeep, List.tail_cons]
      exact map_snd_zip_of_length_eq rest rt hlen

/-- C8. When the first column of a parsed table is the unnamed serialized
row-index artifact (pandas labels it `'Unnamed: 0'`) and no real column
carries that label, the Loader drops exactly that column before numeric
conversion, leaving the remaining columns in file order; a table without
such a column is converted with all columns kept. -/
theorem load_csv_drops_index_column (df df2 : DataFrame) (rest : List Str)
    (h1 : df.colNames = str "Unnamed: 0" :: rest)
    (h2 : str "Unnamed: 0" ∉ rest)
    (hw : df.wf)
    (h3 : str "Unnamed: 0" ∉ df2.colNames) :
    load_csv_to_numpy (Except.ok df)
      = some ⟨rest.length, df.rows.map List.tail⟩ ∧
    load_csv_to_numpy (Except.ok df2)
      = some ⟨df2.colNames.length, df2.rows⟩ := by
  constructor
  · have hcont : df.colNames.contains (str "Unnamed: 0") = true := by
      rw [h1, List.contains_cons]
      simp
    have hnames : df.colNames.filter (fun c => c != str "Unnamed: 0") = rest := by
      rw [h1, List.filter_cons]
      simp only [bne_self_eq_false, Bool.false_eq_true, if_false]
      rw [List.filter_eq_self]
      intro c hc
      exact bne_iff_ne.mpr (fun hcu => h2 (hcu ▸ hc))
    have hrows : df.rows.map
        (fun r => ((df.colNames.zip r).filter
          (fun p => p.1 != str "Unnamed: 0")).map Prod.snd)
        = df.rows.map List.tail := by
      apply List.map_congr_left
      intro r hrmem
      rw [h1]
      exact drop_row_eq_tail _ rest h2 r (by rw [hw r hrmem, h1]; rfl)
    simp only [load_csv_to_numpy, hcont, if_true]
    unfold pd_to_numpy dropColumnsNamed
    simp only [Option.some.injEq, Arr2.mk.injEq]
    exact ⟨by rw [hnames], hrows⟩
  · have hcont2 : df2.colNames.contains (str "Unnamed: 0") = false := by
      rcases h : df2.colNames.contains (str "Unnamed: 0") with _ | _
      · rfl
      · exact absurd (List.elem_iff.mp h) h3
    simp only [load_csv_to_numpy, hcont2, Bool.false_eq_true, if_false]
    rfl

theorem load_csv_drops_index_column_witness :
    (⟨[str "Unnamed: 0", str "a"], [[0, 5], [1, 6]]⟩ : DataFrame).colNames
      = str "Unnamed: 0" :: [str "a"] ∧
    str "Unnamed: 0" ∉ [str "a"] ∧
    (⟨[str "Unnamed: 0", str "a"], [[0, 5], [1, 6]]⟩ : DataFrame).wf ∧
    str "Unnamed: 0" ∉ (⟨[str "a"], [[7]]⟩ : DataFrame).colNames ∧
    (load_csv_to_numpy
        (Except.ok ⟨[str "Unnamed: 0", str "a"], [[0, 5], [1, 6]]⟩)
      = some ⟨[str "a"].length,
          ([[0, 5], [1, 6]] : List (List Int)).map List.tail⟩ ∧
     load_csv_to_numpy (Except.ok ⟨[str "a"], [[7]]⟩)
      = some ⟨(⟨[str "a"], [[7]]⟩ : DataFrame).colNames.length, [[7]]⟩) :=
  ⟨by decide, by decide, by decide, by decide,
   load_csv_drops_index_column
     ⟨[str "Unnamed: 0", str "a"], [[0, 5], [1, 6]]⟩
     ⟨[str "a"], [[7]]⟩ [str "a"]
     (by decide) (by decide) (by decide) (by decide)⟩
